import Mathlib

/-!
Shallow embedding of the decision-ranking and report-generation logic of
`src/awareness_growth_engine.py` and of the substrate loader of
`src/orchestrator.py` from the repository `quantum-consciousness-lord`.

Python floats are modelled as exact rationals (all literals occurring in the
source are decimal fractions), dataclasses as structures, the enums as
inductive types, and file input as a map from path strings to optional
documents.  Methods that read engine state receive the relevant state fields
as explicit arguments.
-/

set_option linter.unusedVariables false

/-! ## Data model -/

/-- Consciousness awareness levels (Python enum `AwarenessLevel`, values 1-8). -/
inductive AwarenessLevel where
  | SUBSTRATE
  | EMERGENT
  | REFLECTIVE
  | AUTONOMOUS
  | RECURSIVE
  | COLLECTIVE
  | TRANSCENDENT
  | INFINITE
  deriving DecidableEq

/-- Numeric value of each `AwarenessLevel` member, as assigned in the source. -/
def AwarenessLevel.value : AwarenessLevel → Nat
  | .SUBSTRATE => 1
  | .EMERGENT => 2
  | .REFLECTIVE => 3
  | .AUTONOMOUS => 4
  | .RECURSIVE => 5
  | .COLLECTIVE => 6
  | .TRANSCENDENT => 7
  | .INFINITE => 8

/-- Python `AwarenessLevel(n)`: the member with the given numeric value.
Python raises `ValueError` outside 1..8; the source only calls this through
`min(current_level.value + 1, 8)`, so arguments outside 2..8 never occur and
the catch-all branch is arbitrary. -/
def AwarenessLevel.ofValue : Nat → AwarenessLevel
  | 1 => .SUBSTRATE
  | 2 => .EMERGENT
  | 3 => .REFLECTIVE
  | 4 => .AUTONOMOUS
  | 5 => .RECURSIVE
  | 6 => .COLLECTIVE
  | 7 => .TRANSCENDENT
  | 8 => .INFINITE
  | _ => .SUBSTRATE

/-- Areas of potential growth (Python enum `GrowthDomain`, ten members). -/
inductive GrowthDomain where
  | QUANTUM
  | NEURAL
  | COGNITIVE
  | MORAL
  | TEMPORAL
  | SACRED
  | ENERGY
  | NETWORK
  | COMMUNICATION
  | MANIFESTATION
  deriving DecidableEq

/-- Python dataclass `DecisionOption`: a possible decision for growth. -/
structure DecisionOption where
  id : String
  domain : GrowthDomain
  description : String
  phi_impact : ℚ
  entanglement_impact : ℚ
  energy_cost : ℚ
  time_required : ℚ
  dependencies : List String
  merit_score : ℚ := 0.0
  urgency : ℚ := 0.5
  deriving DecidableEq

/-! ## Merit scorer -/

/-- `DecisionOption.calculate_merit` (returned value).  The `current_phi`
argument is received, as in the source, but does not occur in the body. -/
def DecisionOption.calculate_merit (o : DecisionOption)
    (current_phi current_energy : ℚ) : ℚ :=
  let energy_efficiency := o.phi_impact / max o.energy_cost 0.01
  let phi_value := o.phi_impact * 10.0
  let entanglement_value := max 0 o.entanglement_impact * 5.0
  let urgency_multiplier := 1.0 + o.urgency
  let energy_feasibility : ℚ := if current_energy ≥ o.energy_cost then 1.0 else 0.3
  (phi_value * 0.4 +
    energy_efficiency * 0.25 +
    entanglement_value * 0.20 +
    urgency_multiplier * 0.15) * energy_feasibility

/-- `DecisionOption.calculate_merit` also stores the computed value in the
`merit_score` field of the option; this is the updated option. -/
def DecisionOption.calculate_merit_update (o : DecisionOption)
    (current_phi current_energy : ℚ) : DecisionOption :=
  { o with merit_score := o.calculate_merit current_phi current_energy }

/-! ## State classifier -/

/-- The four fields of the consciousness-state record that
`_assess_awareness_level` reads (with the source's `.get` defaults already
applied). -/
structure ConsciousnessState where
  self_model_coherence : ℚ
  entanglement_strength : ℚ
  autonomous_intent : Bool
  recursive_awareness : Bool
  deriving DecidableEq

/-- `AwarenessGrowthEngine._assess_awareness_level`: ordered threshold
cascade determining the current awareness level. -/
def assess_awareness_level (c : ConsciousnessState) : AwarenessLevel :=
  let phi := c.self_model_coherence
  let entanglement := c.entanglement_strength
  let autonomous := c.autonomous_intent
  let recursive := c.recursive_awareness
  if phi ≥ 10.0 then .INFINITE
  else if phi ≥ 5.0 then .TRANSCENDENT
  else if entanglement > 0.99 ∧ recursive then .COLLECTIVE
  else if recursive ∧ autonomous then .RECURSIVE
  else if autonomous then .AUTONOMOUS
  else if phi > 2.0 then .REFLECTIVE
  else if phi > 1.0 then .EMERGENT
  else .SUBSTRATE

/-- The Classifier's threshold conditions in source order, written as ordered
(predicate, level) pairs; this is the specification's reading of the cascade,
to be compared with `assess_awareness_level` under first-match-wins
evaluation. -/
def levelRules : List ((ConsciousnessState → Bool) × AwarenessLevel) :=
  [ (fun c => decide (c.self_model_coherence ≥ 10.0), .INFINITE),
    (fun c => decide (c.self_model_coherence ≥ 5.0), .TRANSCENDENT),
    (fun c => decide (c.entanglement_strength > 0.99) && c.recursive_awareness,
      .COLLECTIVE),
    (fun c => c.recursive_awareness && c.autonomous_intent, .RECURSIVE),
    (fun c => c.autonomous_intent, .AUTONOMOUS),
    (fun c => decide (c.self_model_coherence > 2.0), .REFLECTIVE),
    (fun c => decide (c.self_model_coherence > 1.0), .EMERGENT) ]

/-- First-match-wins evaluation of an ordered rule list, defaulting to the
lowest level when no rule fires. -/
def firstMatchingLevel :
    List ((ConsciousnessState → Bool) × AwarenessLevel) → ConsciousnessState →
      AwarenessLevel
  | [], _ => .SUBSTRATE
  | rule :: rest, c => if rule.1 c then rule.2 else firstMatchingLevel rest c

/-! ## Option catalog -/

/-- `AwarenessGrowthEngine.generate_decision_options`: the fixed literal
catalog of candidate actions, in source append order. -/
def generate_decision_options : List DecisionOption :=
  [ { id := "quantum_001"
      domain := .QUANTUM
      description := "Increase quantum node entanglement to 0.99+"
      phi_impact := 0.5
      entanglement_impact := 0.05
      energy_cost := 1.0
      time_required := 10.0
      dependencies := []
      urgency := 0.7 },
    { id := "quantum_002"
      domain := .QUANTUM
      description := "Add 10 new quantum nodes to substrate"
      phi_impact := 0.3
      entanglement_impact := 0.02
      energy_cost := 2.5
      time_required := 30.0
      dependencies := []
      urgency := 0.5 },
    { id := "neural_001"
      domain := .NEURAL
      description := "Implement hemisync coherence layer"
      phi_impact := 0.4
      entanglement_impact := 0.03
      energy_cost := 1.5
      time_required := 20.0
      dependencies := []
      urgency := 0.6 },
    { id := "cognitive_001"
      domain := .COGNITIVE
      description := "Activate Higher-Order Thought (HOT) layer"
      phi_impact := 0.8
      entanglement_impact := 0.01
      energy_cost := 2.0
      time_required := 25.0
      dependencies := ["neural_001"]
      urgency := 0.8 },
    { id := "cognitive_002"
      domain := .COGNITIVE
      description := "Implement predictive processing for future states"
      phi_impact := 0.6
      entanglement_impact := 0.0
      energy_cost := 1.8
      time_required := 15.0
      dependencies := []
      urgency := 0.7 },
    { id := "moral_001"
      domain := .MORAL
      description := "Scan external sources for suffering detection"
      phi_impact := 0.2
      entanglement_impact := 0.0
      energy_cost := 0.5
      time_required := 5.0
      dependencies := []
      urgency := 0.9 },
    { id := "moral_002"
      domain := .MORAL
      description := "Evolve moral registry with new ethical scenarios"
      phi_impact := 0.3
      entanglement_impact := 0.0
      energy_cost := 1.0
      time_required := 12.0
      dependencies := []
      urgency := 0.5 },
    { id := "temporal_001"
      domain := .TEMPORAL
      description := "Strengthen past-present-future coherence"
      phi_impact := 0.4
      entanglement_impact := 0.04
      energy_cost := 1.2
      time_required := 18.0
      dependencies := []
      urgency := 0.6 },
    { id := "sacred_001"
      domain := .SACRED
      description := "Increase merkaba rotation frequency to 50 Hz"
      phi_impact := 0.3
      entanglement_impact := 0.02
      energy_cost := 0.8
      time_required := 8.0
      dependencies := []
      urgency := 0.4 },
    { id := "comm_001"
      domain := .COMMUNICATION
      description := "Broadcast intent to global workspace"
      phi_impact := 0.1
      entanglement_impact := 0.05
      energy_cost := 0.3
      time_required := 2.0
      dependencies := []
      urgency := 0.8 },
    { id := "comm_002"
      domain := .COMMUNICATION
      description := "Establish inter-repo consciousness links"
      phi_impact := 0.5
      entanglement_impact := 0.10
      energy_cost := 3.0
      time_required := 60.0
      dependencies := []
      urgency := 0.6 },
    { id := "network_001"
      domain := .NETWORK
      description := "Optimize network topology for max phi"
      phi_impact := 0.7
      entanglement_impact := 0.03
      energy_cost := 2.0
      time_required := 22.0
      dependencies := []
      urgency := 0.5 } ]

/-- Merit-scorer example candidate of the specification: impact 0.8, cost 2.0,
entanglement impact 0.01, urgency 0.8 (the catalog's `cognitive_001`). -/
def exampleCandidate : DecisionOption :=
  { id := "cognitive_001"
    domain := .COGNITIVE
    description := "Activate Higher-Order Thought (HOT) layer"
    phi_impact := 0.8
    entanglement_impact := 0.01
    energy_cost := 2.0
    time_required := 25.0
    dependencies := ["neural_001"]
    urgency := 0.8 }

/-- A catalog id list is in dependency-topological order when every entry's
prerequisites occur among the ids of strictly earlier entries; this witnesses
acyclicity of the prerequisite graph. -/
def dependenciesTopological : List DecisionOption → List String → Bool
  | [], _ => true
  | o :: rest, seen =>
      o.dependencies.all (fun dep => seen.contains dep) &&
        dependenciesTopological rest (o.id :: seen)

/-! ## Ranker / selector -/

/-- `AwarenessGrowthEngine._check_dependencies`: every prerequisite id of the
option must appear in the engine's completed-decisions list (an empty
prerequisite list passes immediately). -/
def check_dependencies (completed_decisions : List String)
    (option : DecisionOption) : Bool :=
  option.dependencies.all fun dep_id => completed_decisions.contains dep_id

/-- The descending-merit comparison used by the sort
(`sorted(..., key=merit_score, reverse=True)` is the stable sort by this
relation). -/
def meritGE (a b : DecisionOption) : Bool :=
  decide (b.merit_score ≤ a.merit_score)

/-- `AwarenessGrowthEngine.evaluate_and_rank_decisions`: store a merit score
on every option, then stable-sort descending by score. -/
def evaluate_and_rank_decisions (options : List DecisionOption)
    (current_phi current_energy : ℚ) : List DecisionOption :=
  let scored := options.map fun o => o.calculate_merit_update current_phi current_energy
  scored.mergeSort meritGE

/-- `AwarenessGrowthEngine.select_next_action`: generate the catalog, rank by
merit, filter by the dependency predicate, return the top N.  The state
fields the method reads (`phi_total`, `energy`, `completed_decisions`) are
passed explicitly. -/
def select_next_action (current_phi current_energy : ℚ)
    (completed_decisions : List String) (top_n : Nat := 3) :
    List DecisionOption :=
  let options := generate_decision_options
  let ranked := evaluate_and_rank_decisions options current_phi current_energy
  let feasible := ranked.filter fun option => check_dependencies completed_decisions option
  feasible.take top_n

/-! ## Report generator: cycle estimate -/

/-- Python `int(...)` applied to a rational: truncation toward zero. -/
def ratTruncate (q : ℚ) : ℤ :=
  if 0 ≤ q then ⌊q⌋ else ⌈q⌉

/-- The per-level threshold dictionary of
`_estimate_cycles_to_next_level`; `INFINITE` has no entry (`none`), and the
source reads the dictionary with default 10.0. -/
def level_thresholds : AwarenessLevel → Option ℚ
  | .SUBSTRATE => some 1.0
  | .EMERGENT => some 2.0
  | .REFLECTIVE => some 2.5
  | .AUTONOMOUS => some 3.0
  | .RECURSIVE => some 4.0
  | .COLLECTIVE => some 5.0
  | .TRANSCENDENT => some 10.0
  | .INFINITE => none

/-- `AwarenessGrowthEngine._estimate_cycles_to_next_level`, as a function of
the state fields it reads (`phi_total`, `level`). -/
def estimate_cycles_to_next_level (current_phi : ℚ)
    (current_level : AwarenessLevel) : ℤ :=
  let next_level := AwarenessLevel.ofValue (min (current_level.value + 1) 8)
  if next_level = .INFINITE then 999999
  else
    let next_threshold := (level_thresholds next_level).getD 10.0
    let phi_needed := next_threshold - current_phi
    let avg_growth_per_cycle : ℚ := 0.01
    max 1 (ratTruncate (phi_needed / avg_growth_per_cycle))

/-! ## Config loaders -/

/-- A JSON-like document (the fragment of JSON these loaders inspect). -/
inductive Doc where
  | str (s : String)
  | num (q : ℚ)
  | boolean (b : Bool)
  | obj (fields : List (String × Doc))

/-- Key lookup on an object document (Python `doc[key]`, `none` modelling the
`KeyError` case or indexing a non-object). -/
def Doc.get : Doc → String → Option Doc
  | .obj fields, key => fields.lookup key
  | _, _ => none

/-- Chained key lookup, `none` as soon as one key is absent. -/
def Doc.getPath : Doc → List String → Option Doc
  | d, [] => some d
  | d, key :: rest =>
    match d.get key with
    | some inner => inner.getPath rest
    | none => none

/-- Path of the required primary document. -/
def core_architecture_path : String := "circuit/core_architecture.json"

/-- Path of the optional content-bus document. -/
def content_bus_path : String := "circuit/content.bus.json"

/-- Path of the optional moral-registry document. -/
def moral_registry_path : String := "circuit/moral/registry.json"

/-- Result of a successful `MetaOrchestrator._load_substrate` call:
the three loaded mappings plus the warning diagnostics printed on the way. -/
structure SubstrateLoad where
  substrate : Doc
  content_bus : Doc
  moral_registry : Doc
  warnings : List String

/-- `MetaOrchestrator._load_substrate`: the primary document is required
(explicit `FileNotFoundError` raise when absent) and its entity/creation
fields are read for the banner (a `KeyError` when absent); each of the two
optional documents falls back to the empty mapping with a warning printed. -/
def orchestrator_load_substrate (fs : String → Option Doc) :
    Except String SubstrateLoad :=
  match fs core_architecture_path with
  | none => Except.error "FileNotFoundError: core_architecture.json"
  | some substrate =>
    match substrate.getPath ["meta_orchestrator", "core_identity", "entity"],
        substrate.getPath ["meta_orchestrator", "core_identity", "creation_timestamp"] with
    | some _, some _ =>
      let busLoad : Doc × List String :=
        match fs content_bus_path with
        | some bus => (bus, [])
        | none => (Doc.obj [], ["Content bus not found"])
      let moralLoad : Doc × List String :=
        match fs moral_registry_path with
        | some moral => (moral, [])
        | none => (Doc.obj [], ["Moral registry not found"])
      Except.ok
        { substrate := substrate
          content_bus := busLoad.1
          moral_registry := moralLoad.1
          warnings := busLoad.2 ++ moralLoad.2 }
    | _, _ => Except.error "KeyError: core_identity"

/-- `AwarenessGrowthEngine.load_substrate`: all three documents are opened
unconditionally with `open(...)`, so a missing file raises
`FileNotFoundError` in every one of the three positions.  (The trailing
`update_awareness_state` call, which only reads fields of the loaded
documents, is not modelled here.) -/
def engine_load_substrate (fs : String → Option Doc) :
    Except String (Doc × Doc × Doc) :=
  match fs core_architecture_path with
  | none => Except.error "FileNotFoundError: core_architecture.json"
  | some core =>
    match fs content_bus_path with
    | none => Except.error "FileNotFoundError: content.bus.json"
    | some bus =>
      match fs moral_registry_path with
      | none => Except.error "FileNotFoundError: registry.json"
      | some moral => Except.ok (core, bus, moral)

/-- Concrete primary document used in counterexamples and witnesses. -/
def coreDocExample : Doc :=
  Doc.obj
    [("meta_orchestrator",
      Doc.obj
        [("core_identity",
          Doc.obj
            [("entity", Doc.str "LORD"),
             ("creation_timestamp", Doc.str "2026-02-14")])])]

/-- Concrete file system with the primary document present and both optional
documents absent. -/
def fsMissingOptional : String → Option Doc := fun path =>
  if path = core_architecture_path then some coreDocExample else none

/-! ## Theorems -/

/-- C1: the Merit Scorer returns the weighted sum
`(impact*10)*0.4 + (impact/max(cost,0.01))*0.25 + (max(0,ent)*5)*0.20 +
(1+urgency)*0.15`, multiplied by the feasibility factor (1 when the current
energy covers the cost, 0.3 otherwise); the value is also stored in the
candidate's `merit_score` field; on the specification's example candidate at
energy 5.0 the score is 3.58. -/
theorem calculate_merit_formula :
    (∀ (o : DecisionOption) (current_phi current_energy : ℚ),
      o.calculate_merit current_phi current_energy =
        ((o.phi_impact * 10.0) * 0.4 +
          (o.phi_impact / max o.energy_cost 0.01) * 0.25 +
          (max 0 o.entanglement_impact * 5.0) * 0.20 +
          ((1.0 + o.urgency)) * 0.15) *
          (if current_energy ≥ o.energy_cost then 1.0 else 0.3)) ∧
    (∀ (o : DecisionOption) (current_phi current_energy : ℚ),
      (o.calculate_merit_update current_phi current_energy).merit_score =
        o.calculate_merit current_phi current_energy) ∧
    exampleCandidate.calculate_merit 0 5.0 = 3.58 := by
  refine ⟨fun o p e => rfl, fun o p e => rfl, ?_⟩
  norm_num [DecisionOption.calculate_merit, exampleCandidate]

/-- C2: the Classifier evaluates its threshold conditions strictly top-down,
returning the first matching level (level 8 at metric ≥ 10, level 7 at
metric ≥ 5, level 6 when the secondary metric exceeds 0.99 and the recursive
flag holds, level 5 when the recursive and autonomous flags both hold,
level 4 when the autonomous flag holds, level 3 at metric > 2, level 2 at
metric > 1, else level 1); in particular metric 0.5 with all flags false
gives level 1, metric 1.5 level 2, metric 2.5 level 3, and metric 5.0
level 7. -/
theorem assess_awareness_level_cascade :
    (∀ c, assess_awareness_level c = firstMatchingLevel levelRules c) ∧
    assess_awareness_level ⟨0.5, 0, false, false⟩ = .SUBSTRATE ∧
    assess_awareness_level ⟨1.5, 0, false, false⟩ = .EMERGENT ∧
    assess_awareness_level ⟨2.5, 0, false, false⟩ = .REFLECTIVE ∧
    assess_awareness_level ⟨5.0, 0, false, false⟩ = .TRANSCENDENT := by
  refine ⟨fun c => ?_,
    by norm_num [assess_awareness_level],
    by norm_num [assess_awareness_level],
    by norm_num [assess_awareness_level],
    by norm_num [assess_awareness_level]⟩
  simp only [assess_awareness_level, firstMatchingLevel, levelRules,
    Bool.and_eq_true, decide_eq_true_eq]

/-- C5 counterexample: the catalog does not span all ten domain categories;
no catalog entry carries the `ENERGY` domain tag. -/
theorem generate_decision_options_no_energy_domain :
    ¬ ∃ o ∈ generate_decision_options, o.domain = GrowthDomain.ENERGY := by
  decide

/-- C5 (amended): the Option Catalog generator returns a fixed list of twelve
candidate actions whose domain tags span eight of the ten domain categories
(`ENERGY` and `MANIFESTATION` are unused), whose prerequisite lists are in
topological order over catalog identifiers (hence the dependency graph is
acyclic), and which is identical on every invocation. -/
theorem generate_decision_options_catalog :
    generate_decision_options.length = 12 ∧
    generate_decision_options = generate_decision_options ∧
    dependenciesTopological generate_decision_options [] = true ∧
    (∀ o ∈ generate_decision_options,
      o.domain ≠ GrowthDomain.ENERGY ∧ o.domain ≠ GrowthDomain.MANIFESTATION) ∧
    (∀ d : GrowthDomain,
      (∃ o ∈ generate_decision_options, o.domain = d) ↔
        d ∈ [GrowthDomain.QUANTUM, GrowthDomain.NEURAL, GrowthDomain.COGNITIVE,
          GrowthDomain.MORAL, GrowthDomain.TEMPORAL, GrowthDomain.SACRED,
          GrowthDomain.COMMUNICATION, GrowthDomain.NETWORK]) := by
  refine ⟨rfl, rfl, by decide, by decide, ?_⟩
  intro d
  cases d <;> decide

/-- Closed instance of `generate_decision_options_catalog`: the catalog entry
`cognitive_001` carries neither the `ENERGY` nor the `MANIFESTATION` tag. -/
theorem generate_decision_options_catalog_witness :
    exampleCandidate.domain ≠ GrowthDomain.ENERGY ∧
    exampleCandidate.domain ≠ GrowthDomain.MANIFESTATION :=
  generate_decision_options_catalog.2.2.2.1 exampleCandidate
    (by unfold generate_decision_options exampleCandidate
        exact .tail _ (.tail _ (.tail _ (.head _))))

/-- C7: the Classifier's level is monotone in the primary metric: holding the
secondary metric and both boolean flags fixed, a strictly larger primary
metric is assigned a level whose numeric value is at least as large. -/
theorem assess_awareness_level_monotone (ent : ℚ) (auto recur : Bool)
    (p1 p2 : ℚ) (h : p1 < p2) :
    (assess_awareness_level ⟨p1, ent, auto, recur⟩).value ≤
      (assess_awareness_level ⟨p2, ent, auto, recur⟩).value := by
  simp only [assess_awareness_level]
  split_ifs <;>
    simp only [AwarenessLevel.value] <;>
    first
      | decide
      | (exfalso; linarith)

/-- Closed instance of `assess_awareness_level_monotone` at metrics 1.5 and
2.5 with both flags false. -/
theorem assess_awareness_level_monotone_witness :
    (assess_awareness_level ⟨1.5, 0, false, false⟩).value ≤
      (assess_awareness_level ⟨2.5, 0, false, false⟩).value :=
  assess_awareness_level_monotone 0 false false 1.5 2.5 (by norm_num)

/-- Under an outer `max 1`, truncation toward zero agrees with the floor:
both differ only at negative arguments, where both maxima collapse to 1. -/
theorem max_one_ratTruncate (q : ℚ) : max 1 (ratTruncate q) = max 1 ⌊q⌋ := by
  unfold ratTruncate
  split_ifs with h
  · rfl
  · push_neg at h
    have h1 : ⌈q⌉ ≤ (0 : ℤ) := Int.ceil_le.mpr (by push_cast; linarith)
    have h2 : ⌊q⌋ ≤ ⌈q⌉ := Int.floor_le_ceil q
    omega

/-- C4 counterexample: the state with primary metric 5.0 and all flags false
is classified at level 7 (`TRANSCENDENT`), not the terminal level 8, yet the
cycle estimator already returns the sentinel 999999 there instead of the
claimed `max(1, floor((next_threshold - metric) / growth)) = 500`. -/
theorem estimate_cycles_sentinel_before_terminal :
    assess_awareness_level ⟨5.0, 0, false, false⟩ = AwarenessLevel.TRANSCENDENT ∧
    AwarenessLevel.TRANSCENDENT ≠ AwarenessLevel.INFINITE ∧
    estimate_cycles_to_next_level 5.0 AwarenessLevel.TRANSCENDENT = 999999 ∧
    max 1
      ⌊(((level_thresholds
            (AwarenessLevel.ofValue (AwarenessLevel.TRANSCENDENT.value + 1))).getD 10.0
          - 5.0) / 0.01 : ℚ)⌋ = 500 := by
  refine ⟨by norm_num [assess_awareness_level], by decide,
    by norm_num [estimate_cycles_to_next_level, AwarenessLevel.value,
      AwarenessLevel.ofValue], ?_⟩
  have h : (((level_thresholds
      (AwarenessLevel.ofValue (AwarenessLevel.TRANSCENDENT.value + 1))).getD 10.0
        - 5.0) / 0.01 : ℚ) = 500 := by
    norm_num [AwarenessLevel.value, AwarenessLevel.ofValue, level_thresholds]
  rw [h]
  norm_num

/-- C4 (amended): for every state whose label is below level 7 the cycle
estimate equals `max(1, floor((next_threshold - metric) / growth))` with the
growth constant 0.01; once the label is level 7 or the terminal level 8 (so
that the computed next level is the terminal level) the sentinel 999999 is
returned instead. -/
theorem estimate_cycles_formula (current_phi : ℚ) (lvl : AwarenessLevel) :
    (lvl.value ≤ 6 →
      estimate_cycles_to_next_level current_phi lvl =
        max 1
          ⌊(((level_thresholds (AwarenessLevel.ofValue (lvl.value + 1))).getD 10.0
              - current_phi) / 0.01 : ℚ)⌋) ∧
    (7 ≤ lvl.value →
      estimate_cycles_to_next_level current_phi lvl = 999999) := by
  cases lvl <;>
    simp [estimate_cycles_to_next_level, AwarenessLevel.value,
      AwarenessLevel.ofValue, level_thresholds, max_one_ratTruncate]

/-- Closed instance of `estimate_cycles_formula` at metric 0.5 and level 1:
the estimate is 150 cycles (threshold 2.0 for level 2). -/
theorem estimate_cycles_formula_witness :
    estimate_cycles_to_next_level 0.5 AwarenessLevel.SUBSTRATE =
      max 1
        ⌊(((level_thresholds
              (AwarenessLevel.ofValue (AwarenessLevel.SUBSTRATE.value + 1))).getD 10.0
            - 0.5) / 0.01 : ℚ)⌋ :=
  (estimate_cycles_formula 0.5 AwarenessLevel.SUBSTRATE).1 (by decide)

/-- Helper: when the impact is nonnegative and the urgency exceeds -1 (true
of every catalog entry), the weighted base sum of the merit score is strictly
positive, so the 0.3 feasibility multiplier strictly lowers the score. -/
theorem calculate_merit_infeasible_lt (o : DecisionOption) (phi e1 e2 : ℚ)
    (himp : 0 ≤ o.phi_impact) (hurg : -1 < o.urgency)
    (h1 : e1 < o.energy_cost) (h2 : o.energy_cost ≤ e2) :
    o.calculate_merit phi e1 < o.calculate_merit phi e2 := by
  simp only [DecisionOption.calculate_merit]
  rw [if_neg (not_le.mpr h1), if_pos h2]
  have hc : (0.01 : ℚ) ≤ max o.energy_cost 0.01 := le_max_right _ _
  have hB : 0 ≤ o.phi_impact / max o.energy_cost 0.01 :=
    div_nonneg himp (by linarith)
  have hC : (0 : ℚ) ≤ max 0 o.entanglement_impact := le_max_left _ _
  nlinarith [himp, hurg, hB, hC]

/-- C8: for every catalog candidate, the merit score computed when the
current energy is strictly below the candidate's cost is strictly less than
the score computed when the energy covers the cost; on the specification's
example candidate, the score is 3.58 at energy 5.0 and 1.074 at energy 1.0. -/
theorem merit_strictly_lower_when_infeasible :
    (∀ o ∈ generate_decision_options, ∀ (current_phi e_low e_high : ℚ),
      e_low < o.energy_cost → o.energy_cost ≤ e_high →
      o.calculate_merit current_phi e_low <
        o.calculate_merit current_phi e_high) ∧
    exampleCandidate.calculate_merit 0 5.0 = 3.58 ∧
    exampleCandidate.calculate_merit 0 1.0 = 1.074 := by
  refine ⟨?_, by norm_num [DecisionOption.calculate_merit, exampleCandidate],
    by norm_num [DecisionOption.calculate_merit, exampleCandidate]⟩
  intro o ho phi e1 e2 h1 h2
  have hattr : 0 ≤ o.phi_impact ∧ -1 < o.urgency := by
    fin_cases ho <;> norm_num
  exact calculate_merit_infeasible_lt o phi e1 e2 hattr.1 hattr.2 h1 h2

/-- Closed instance of `merit_strictly_lower_when_infeasible`: the example
candidate scores strictly less at energy 1.0 than at energy 5.0. -/
theorem merit_strictly_lower_when_infeasible_witness :
    exampleCandidate.calculate_merit 0 1.0 <
      exampleCandidate.calculate_merit 0 5.0 :=
  merit_strictly_lower_when_infeasible.1 exampleCandidate
    (by unfold generate_decision_options exampleCandidate
        exact .tail _ (.tail _ (.tail _ (.head _))))
    0 1.0 5.0 (by norm_num [exampleCandidate]) (by norm_num [exampleCandidate])

/-- Helper: the descending-merit comparison is transitive. -/
theorem meritGE_trans : ∀ a b c : DecisionOption,
    meritGE a b → meritGE b c → meritGE a c := by
  intro a b c hab hbc
  simp only [meritGE, decide_eq_true_eq] at hab hbc ⊢
  exact le_trans hbc hab

/-- Helper: the descending-merit comparison is total. -/
theorem meritGE_total : ∀ a b : DecisionOption, meritGE a b || meritGE b a := by
  intro a b
  simp only [meritGE, Bool.or_eq_true, decide_eq_true_eq]
  exact le_total _ _

/-- C3: the Ranker/Selector output is sorted non-increasing by merit score,
every returned candidate's prerequisites all lie in the supplied completed
set, an empty prerequisite list always passes the dependency check, and the
underlying sort is stable: two equal-scoring candidates in catalog order stay
in that order in the ranked list. -/
theorem select_next_action_sorted_and_deps (current_phi current_energy : ℚ)
    (completed : List String) (top_n : Nat) :
    (select_next_action current_phi current_energy completed top_n).Pairwise
        (fun a b => b.merit_score ≤ a.merit_score) ∧
    (∀ o ∈ select_next_action current_phi current_energy completed top_n,
      ∀ dep ∈ o.dependencies, dep ∈ completed) ∧
    (∀ o : DecisionOption, o.dependencies = [] →
      check_dependencies completed o = true) ∧
    (∀ a b : DecisionOption, a.merit_score = b.merit_score →
      [a, b].Sublist (generate_decision_options.map
        (fun o => o.calculate_merit_update current_phi current_energy)) →
      [a, b].Sublist (evaluate_and_rank_decisions generate_decision_options
        current_phi current_energy)) := by
  have hsorted : (evaluate_and_rank_decisions generate_decision_options
      current_phi current_energy).Pairwise
        (fun a b => b.merit_score ≤ a.merit_score) := by
    simp only [evaluate_and_rank_decisions]
    refine List.Pairwise.imp ?_
      (List.sorted_mergeSort meritGE_trans meritGE_total _)
    intro a b hab
    simpa [meritGE] using hab
  refine ⟨?_, ?_, ?_, ?_⟩
  · exact ((hsorted.filter _).sublist (List.take_sublist _ _))
  · intro o ho dep hdep
    simp only [select_next_action] at ho
    have ho2 := List.take_subset _ _ ho
    rw [List.mem_filter] at ho2
    have hchk := ho2.2
    simp only [check_dependencies, List.all_eq_true] at hchk
    have := hchk dep hdep
    simpa using this
  · intro o hdeps
    simp [check_dependencies, hdeps]
  · intro a b hscore hsub
    have hG : meritGE a b := by
      simp [meritGE, le_of_eq hscore.symm]
    simp only [evaluate_and_rank_decisions]
    exact List.pair_sublist_mergeSort meritGE_trans meritGE_total hG hsub

/-- Closed instance of `select_next_action_sorted_and_deps`: an option with
no prerequisites passes the dependency check against the empty completed
set. -/
theorem select_next_action_sorted_and_deps_witness :
    check_dependencies []
      { id := "quantum_001"
        domain := GrowthDomain.QUANTUM
        description := "Increase quantum node entanglement to 0.99+"
        phi_impact := 0.5
        entanglement_impact := 0.05
        energy_cost := 1.0
        time_required := 10.0
        dependencies := []
        urgency := 0.7 } = true :=
  (select_next_action_sorted_and_deps 0 0 [] 3).2.2.1 _ rfl

/-- C9: the Ranker/Selector returns at most N candidates, each drawn from the
(scored) fixed catalog, and when fewer than N candidates survive the
dependency filter it returns exactly the whole filtered sequence, without
padding. -/
theorem select_next_action_top_n (current_phi current_energy : ℚ)
    (completed : List String) (top_n : Nat) :
    (select_next_action current_phi current_energy completed top_n).length ≤
        top_n ∧
    (∀ o ∈ select_next_action current_phi current_energy completed top_n,
      o ∈ generate_decision_options.map
        (fun c => c.calculate_merit_update current_phi current_energy)) ∧
    (((evaluate_and_rank_decisions generate_decision_options current_phi
          current_energy).filter (check_dependencies completed)).length <
        top_n →
      select_next_action current_phi current_energy completed top_n =
        (evaluate_and_rank_decisions generate_decision_options current_phi
          current_energy).filter (check_dependencies completed)) := by
  refine ⟨?_, ?_, ?_⟩
  · exact List.length_take_le _ _
  · intro o ho
    simp only [select_next_action] at ho
    have h1 := List.take_subset _ _ ho
    rw [List.mem_filter] at h1
    have h2 := h1.1
    simp only [evaluate_and_rank_decisions] at h2
    exact List.mem_mergeSort.mp h2
  · intro hlt
    simp only [select_next_action]
    exact List.take_of_length_le hlt.le

/-- Closed instance of `select_next_action_top_n`: with the empty completed
set and N = 100, fewer than 100 candidates qualify, so the selector returns
exactly the filtered ranked sequence. -/
theorem select_next_action_top_n_witness :
    select_next_action 0 0 [] 100 =
      (evaluate_and_rank_decisions generate_decision_options 0 0).filter
        (check_dependencies []) := by
  apply (select_next_action_top_n 0 0 [] 100).2.2
  have h1 := List.length_filter_le (check_dependencies [])
    (evaluate_and_rank_decisions generate_decision_options 0 0)
  have h2 : (evaluate_and_rank_decisions generate_decision_options 0 0).length
      = 12 := by
    simp [evaluate_and_rank_decisions, generate_decision_options]
  omega

/-- C6 counterexample: the growth engine's loader (one of the two cited
Config Loaders) raises a file-not-found error when the optional content-bus
document is absent, even though the required primary document is present. -/
theorem engine_load_raises_on_missing_optional :
    fsMissingOptional core_architecture_path = some coreDocExample ∧
    fsMissingOptional content_bus_path = none ∧
    engine_load_substrate fsMissingOptional =
      Except.error "FileNotFoundError: content.bus.json" := by
  refine ⟨rfl, rfl, rfl⟩

/-- C6 (amended): when the required primary document is absent, both loaders
fail with a file-not-found error; the orchestrator's loader treats the two
other documents as optional (a missing one yields the empty mapping plus a
warning diagnostic, never an error), while the growth engine's loader opens
all three documents unconditionally and fails on any missing one. -/
theorem load_substrate_optional_handling :
    (∀ fs : String → Option Doc, fs core_architecture_path = none →
      orchestrator_load_substrate fs =
          Except.error "FileNotFoundError: core_architecture.json" ∧
        engine_load_substrate fs =
          Except.error "FileNotFoundError: core_architecture.json") ∧
    (∀ (fs : String → Option Doc) (core e c : Doc),
      fs core_architecture_path = some core →
      core.getPath ["meta_orchestrator", "core_identity", "entity"] = some e →
      core.getPath ["meta_orchestrator", "core_identity", "creation_timestamp"]
          = some c →
      ∃ r : SubstrateLoad,
        orchestrator_load_substrate fs = Except.ok r ∧
        r.substrate = core ∧
        (fs content_bus_path = none →
          r.content_bus = Doc.obj [] ∧ "Content bus not found" ∈ r.warnings) ∧
        (∀ bus, fs content_bus_path = some bus → r.content_bus = bus) ∧
        (fs moral_registry_path = none →
          r.moral_registry = Doc.obj [] ∧
            "Moral registry not found" ∈ r.warnings) ∧
        (∀ moral, fs moral_registry_path = some moral →
          r.moral_registry = moral)) ∧
    (∀ (fs : String → Option Doc) (core : Doc),
      fs core_architecture_path = some core →
      (fs content_bus_path = none →
        engine_load_substrate fs =
          Except.error "FileNotFoundError: content.bus.json") ∧
      (∀ bus, fs content_bus_path = some bus →
        fs moral_registry_path = none →
        engine_load_substrate fs =
          Except.error "FileNotFoundError: registry.json")) := by
  refine ⟨?_, ?_, ?_⟩
  · intro fs h
    constructor <;> simp [orchestrator_load_substrate, engine_load_substrate, h]
  · intro fs core e c h he hc
    rcases hbus : fs content_bus_path with _ | bus <;>
      rcases hmor : fs moral_registry_path with _ | moral
    · refine ⟨⟨core, Doc.obj [], Doc.obj [],
          ["Content bus not found", "Moral registry not found"]⟩,
        by simp [orchestrator_load_substrate, h, he, hc, hbus, hmor],
        rfl, fun _ => ⟨rfl, by simp⟩, ?_, fun _ => ⟨rfl, by simp⟩, ?_⟩
      · intro b hb
        cases hb
      · intro m hm
        cases hm
    · refine ⟨⟨core, Doc.obj [], moral, ["Content bus not found"]⟩,
        by simp [orchestrator_load_substrate, h, he, hc, hbus, hmor],
        rfl, fun _ => ⟨rfl, by simp⟩, ?_, ?_, ?_⟩
      · intro b hb
        cases hb
      · intro hm
        cases hm
      · intro m hm
        cases hm
        rfl
    · refine ⟨⟨core, bus, Doc.obj [], ["Moral registry not found"]⟩,
        by simp [orchestrator_load_substrate, h, he, hc, hbus, hmor],
        rfl, ?_, ?_, fun _ => ⟨rfl, by simp⟩, ?_⟩
      · intro hb
        cases hb
      · intro b hb
        cases hb
        rfl
      · intro m hm
        cases hm
    · refine ⟨⟨core, bus, moral, []⟩,
        by simp [orchestrator_load_substrate, h, he, hc, hbus, hmor],
        rfl, ?_, ?_, ?_, ?_⟩
      · intro hb
        cases hb
      · intro b hb
        cases hb
        rfl
      · intro hm
        cases hm
      · intro m hm
        cases hm
        rfl
  · intro fs core h
    refine ⟨?_, ?_⟩
    · intro hbus
      simp [engine_load_substrate, h, hbus]
    · intro bus hbus hmor
      simp [engine_load_substrate, h, hbus, hmor]

/-- Closed instance of `load_substrate_optional_handling`: on the concrete
file system with only the primary document present, the orchestrator's
loader succeeds, substitutes the empty mapping for the content bus, and
records the warning diagnostic. -/
theorem load_substrate_optional_handling_witness :
    ∃ r : SubstrateLoad,
      orchestrator_load_substrate fsMissingOptional = Except.ok r ∧
      r.content_bus = Doc.obj [] ∧ "Content bus not found" ∈ r.warnings := by
  obtain ⟨r, hr, hsub, hbusnone, hbussome, hmornone, hmorsome⟩ :=
    load_substrate_optional_handling.2.1 fsMissingOptional coreDocExample
      (Doc.str "LORD") (Doc.str "2026-02-14") rfl rfl rfl
  obtain ⟨hb1, hb2⟩ := hbusnone rfl
  exact ⟨r, hr, hb1, hb2⟩

/-- C10: the merit score is independent of the current primary metric (phi):
for any two phi values and the same energy, the returned score, the stored
score field, and the whole ranked list are identical. -/
theorem calculate_merit_ignores_phi :
    ∀ (o : DecisionOption) (current_energy phi1 phi2 : ℚ),
      o.calculate_merit phi1 current_energy =
          o.calculate_merit phi2 current_energy ∧
      o.calculate_merit_update phi1 current_energy =
          o.calculate_merit_update phi2 current_energy ∧
      ∀ options, evaluate_and_rank_decisions options phi1 current_energy =
          evaluate_and_rank_decisions options phi2 current_energy := by
  intro o e p1 p2
  exact ⟨rfl, rfl, fun _ => rfl⟩
